import Mathlib

/-!
Verification of `scripts/generate-api-docs.py` (Smart Medical System API
documentation generator).

The script is embedded shallowly: strings are `List Char`, each Python string
operation used by the script (`in`, `find`, slicing, `strip`, `split`,
`replace`, `startswith`, `join`) is modelled by a structurally recursive
function with Python semantics, and the script's functions become pure Lean
functions.  Exceptions raised by the Python code (the `KeyError` on the
missing `"warnings"` dictionary key) are modelled with `Except`.
-/

set_option maxRecDepth 100000

/-- Python strings, as lists of characters. -/
abbrev Str := List Char

/-- The whitespace characters stripped by Python's `str.strip()` (ASCII part). -/
def isWS (c : Char) : Bool :=
  c == ' ' || c == '\t' || c == '\n' || c == '\r' || c == Char.ofNat 11 || c == Char.ofNat 12

/-- Python `s.strip()`: remove leading and trailing whitespace. -/
def strip (s : Str) : Str :=
  ((s.dropWhile isWS).reverse.dropWhile isWS).reverse

/-- Python `s.split(sep)` for a single-character separator `sep`:
keeps empty fields, `"".split(c) = [""]`. -/
def splitCh (sep : Char) : Str → List Str
  | [] => [[]]
  | c :: cs =>
    if c == sep then [] :: splitCh sep cs
    else
      match splitCh sep cs with
      | [] => [[c]]
      | h :: t => (c :: h) :: t

/-- Python `sep.join(parts)`. -/
def joinWith (sep : Str) : List Str → Str
  | [] => []
  | [x] => x
  | x :: y :: t => x ++ sep ++ joinWith sep (y :: t)

/-- Python `needle in hay`: substring containment. -/
def containsSub (needle : Str) : Str → Bool
  | [] => needle.isPrefixOf []
  | c :: cs => needle.isPrefixOf (c :: cs) || containsSub needle cs

/-- Index of the first occurrence of `needle` in `hay` (`none` when absent);
the core of Python `hay.find(needle)`. -/
def findSub (needle : Str) : Str → Option Nat
  | [] => if needle.isPrefixOf [] then some 0 else none
  | c :: cs =>
    if needle.isPrefixOf (c :: cs) then some 0
    else (findSub needle cs).map (· + 1)

/-- Python `hay.find(needle, start)`, with `none` standing for Python's `-1`. -/
def pyFind (hay needle : Str) (start : Nat) : Option Nat :=
  (findSub needle (hay.drop start)).map (· + start)

/-- Python slicing `s[a:b]` for natural indices (clamped, empty when `b ≤ a`). -/
def pySlice (s : Str) (a b : Nat) : Str :=
  (s.drop a).take (b - a)

/-- Worker for `replaceAll`, structurally recursive on a fuel argument. -/
def replaceAllGo (needle repl : Str) : Nat → Str → Str
  | _, [] => []
  | 0, s => s
  | fuel + 1, c :: cs =>
    if needle.isPrefixOf (c :: cs) then
      repl ++ replaceAllGo needle repl fuel ((c :: cs).drop needle.length)
    else
      c :: replaceAllGo needle repl fuel cs

/-- Python `s.replace(needle, repl)`: replace every (left-to-right,
non-overlapping) occurrence.  All needles used by the script are non-empty. -/
def replaceAll (needle repl s : Str) : Str :=
  replaceAllGo needle repl s.length s

/-- Lower-case a string (used only by spec-worded definitions). -/
def lowerStr (s : Str) : Str := s.map Char.toLower

/-! ## The structure validator (`validate_template_structure`, lines 32-64) -/

/-- The dictionary built by `validate_template_structure`.  The Python dict is
initialised with exactly the keys `valid`, `errors` and `sections_found`;
there is no `warnings` key. -/
structure ValidationResult where
  valid : Bool
  errors : List Str
  sections_found : List Str
deriving DecidableEq, Repr

/-- The five required sections (source lines 40-46). -/
def required_sections : List Str :=
  [("Overview").data, ("Authentication").data, ("Endpoints").data,
   ("Request/Response Examples").data, ("Error Codes").data]

/-- The substring the validator searches for a section (`f"## {section}"`). -/
def sectionMarker (s : Str) : Str := ("## ").data ++ s

/-- The issue string appended for a missing section (source line 53). -/
def missingMsg (s : Str) : Str := ("Missing required section: ").data ++ s

/-- `validate_template_structure` (source lines 32-64).  The section loop
fills `sections_found`/`errors` in `required_sections` order and clears
`valid` when anything is missing.  The two subsequent checks append to
`validation_result["warnings"]` — a key the dictionary does not have — so
whenever either condition holds the function raises `KeyError: 'warnings'`
instead of returning; this is modelled by `Except.error`. -/
def validate_template_structure (t : Str) : Except Str ValidationResult :=
  if (!containsSub (("```http").data) t && !containsSub (("```json").data) t) then
    Except.error (("KeyError: warnings").data)
  else if (!containsSub (("GET /").data) t && !containsSub (("POST /").data) t) then
    Except.error (("KeyError: warnings").data)
  else
    Except.ok
      { valid := required_sections.all (fun s => containsSub (sectionMarker s) t),
        errors := (required_sections.filter
            (fun s => !containsSub (sectionMarker s) t)).map missingMsg,
        sections_found := required_sections.filter
            (fun s => containsSub (sectionMarker s) t) }

/-! ## The subsection extractors (`_extract_error_codes`, `_extract_authentication_info`) -/

/-- `content.find("## Authentication")` inside the containment branch of
`_extract_authentication_info` (source line 166); the default is irrelevant
because the branch guarantees an occurrence. -/
def authStart (content : Str) : Nat :=
  (findSub (("## Authentication").data) content).getD 0

/-- `_extract_authentication_info` (source lines 161-172). -/
def extract_authentication_info (content : Str) : Str :=
  if containsSub (("## Authentication").data) content then
    match pyFind content (("##").data) (authStart content + 1) with
    | some e =>
        ("# Authentication\n\n").data ++ strip (pySlice content (authStart content) e)
    | none => ("# Authentication\n\n").data
  else ("# Authentication\n\n").data

/-- `content.find("### HTTP Status Codes")` in its containment branch
(source line 141). -/
def httpStatusStart (content : Str) : Nat :=
  (findSub (("### HTTP Status Codes").data) content).getD 0

/-- `content.find("### Application Error Codes")` in its containment branch
(source line 151). -/
def appErrStart (content : Str) : Nat :=
  (findSub (("### Application Error Codes").data) content).getD 0

/-- `_extract_error_codes` (source lines 135-159).  Each block finds its start
marker, then the end: first the paired next marker, falling back to
`content.find("##", start_idx + 1)` — which, for these `###` markers, matches
inside the marker itself at `start_idx + 1`. -/
def extract_error_codes (content : Str) : Str :=
  ("# Error Codes\n\n").data ++
  (if containsSub (("### HTTP Status Codes").data) content then
    match (match pyFind content (("### Application Error Codes").data) (httpStatusStart content) with
           | some e => some e
           | none => pyFind content (("##").data) (httpStatusStart content + 1)) with
    | some e => strip (pySlice content (httpStatusStart content) e) ++ ("\n\n").data
    | none => []
  else []) ++
  (if containsSub (("### Application Error Codes").data) content then
    match (match pyFind content (("### Rate Limiting").data) (appErrStart content) with
           | some e => some e
           | none => pyFind content (("##").data) (appErrStart content + 1)) with
    | some e => strip (pySlice content (appErrStart content) e) ++ ("\n\n").data
    | none => []
  else [])

/-! ## The API specification scanner (`_generate_api_specification`, lines 174-223) -/

/-- One entry of an endpoint's `examples` list. -/
structure ApiExample where
  type : Str
  content : Str
deriving DecidableEq, Repr

/-- An endpoint record of the generated specification (source lines 198-204).
`parameters` is created empty and never filled. -/
structure Endpoint where
  method : Str
  path : Str
  description : Str
  parameters : List Str
  examples : List ApiExample
deriving DecidableEq, Repr

/-- The guard of source line 191:
`line.strip().startswith('#### ') and ('GET /' in line or 'POST /' in line)`. -/
def isEndpointHeader (line : Str) : Bool :=
  (("#### ").data).isPrefixOf (strip line) &&
  (containsSub (("GET /").data) line || containsSub (("POST /").data) line)

/-- Source line 195-196: `line.replace('#### ', '').strip().split(' ')`. -/
def headerParts (line : Str) : List Str :=
  splitCh ' ' (strip (replaceAll (("#### ").data) [] line))

/-- The scanning loop of `_generate_api_specification` (source lines 190-221).
The loop index is only ever used to look at the lines after the current one
(the example block is collected with a lookahead that does not advance the
main loop), so the loop recurses structurally on the remaining lines.
At a header line the open endpoint (if any) is appended first; the new record
is only created when the split yields at least two parts (otherwise the — 
already appended — previous record stays current, exactly as in the source).
On a line opening an ```http fence the following lines up to the next fence
are attached as one example when non-empty. -/
def specLoop (cur : Option Endpoint) (acc : List Endpoint) : List Str → List Endpoint
  | [] => acc ++ cur.toList
  | line :: rest =>
    if isEndpointHeader line then
      specLoop
        (if 2 ≤ (headerParts line).length then
          some { method := (headerParts line).headD [],
                 path := ((headerParts line).drop 1).headD [],
                 description := joinWith ((" ").data) ((headerParts line).drop 2),
                 parameters := [], examples := [] }
        else cur)
        (acc ++ cur.toList) rest
    else
      match cur with
      | some ep =>
        if (("```http").data).isPrefixOf (strip line) then
          specLoop
            (some (if (rest.takeWhile (fun l => !(("```").data).isPrefixOf (strip l))).isEmpty then ep
                   else { ep with examples := ep.examples ++
                            [{ type := ("http").data,
                               content := joinWith (("\n").data)
                                 (rest.takeWhile (fun l => !(("```").data).isPrefixOf (strip l))) }] }))
            acc rest
        else specLoop cur acc rest
      | none => specLoop cur acc rest

/-- The JSON object returned by `_generate_api_specification`
(source lines 176-184); `generated_at` is the caller-side timestamp. -/
structure ApiSpec where
  api_name : Str
  version : Str
  base_url : Str
  authentication : Str
  endpoints : List Endpoint
  error_codes : List Str
  generated_at : Str
deriving DecidableEq, Repr

/-- `_generate_api_specification` (source lines 174-223). -/
def generate_api_specification (ts : Str) (content : Str) : ApiSpec :=
  { api_name := ("Smart Medical System API").data,
    version := ("1.0.0").data,
    base_url := ("https://api.smart-medical-system.com/v1").data,
    authentication := ("JWT Bearer Token").data,
    endpoints := specLoop none [] (splitCh '\n' content),
    error_codes := [],
    generated_at := ts }

/-! ## `generate_api_documentation` (lines 66-109) and `main` (lines 270-308) -/

/-- The observable outcome of one `generate_api_documentation` call: the
returned boolean, the final `status` and `errors` of `self.validation_report`,
the `files_generated` names, and the content written to each output file
(`none` when the file was not written). -/
structure GenResult where
  success : Bool
  status : Str
  errors : List Str
  files_generated : List Str
  endpoints_md : Option Str
  error_codes_md : Option Str
  authentication_md : Option Str
  api_specification_json : Option ApiSpec
deriving Repr

/-- `generate_api_documentation` (source lines 66-109); `tmpl` is the template
file's content, `none` when the file does not exist, `ts` the timestamp used
for the generated specification.
* missing template: an error is appended and `False` returned, `status` is
  left at its initial `"pending"` (line 72-73);
* `validate_template_structure` raises (the missing `warnings` key): the
  `except` block records `Generation error: ...` and `status = "failed"`;
* validation invalid: the validation errors are copied, `status = "failed"`;
* validation valid: `endpoints.md` receives the template content verbatim
  (line 92) and the three supporting documents are written (lines 96-97), but
  line 101 then evaluates `validation["warnings"]` — a key
  `validate_template_structure` never creates — so the `except` block runs:
  the function records `Generation error: ...`, sets `status = "failed"` and
  returns `False`.  The `return True` of line 104 is unreachable. -/
def generate_api_documentation (ts : Str) (tmpl : Option Str) : GenResult :=
  match tmpl with
  | none =>
    { success := false, status := ("pending").data,
      errors := [("Template file not found").data], files_generated := [],
      endpoints_md := none, error_codes_md := none,
      authentication_md := none, api_specification_json := none }
  | some t =>
    match validate_template_structure t with
    | Except.error e =>
      { success := false, status := ("failed").data,
        errors := [("Generation error: ").data ++ e], files_generated := [],
        endpoints_md := none, error_codes_md := none,
        authentication_md := none, api_specification_json := none }
    | Except.ok v =>
      if !v.valid then
        { success := false, status := ("failed").data,
          errors := v.errors, files_generated := [],
          endpoints_md := none, error_codes_md := none,
          authentication_md := none, api_specification_json := none }
      else
        { success := false, status := ("failed").data,
          errors := [("Generation error: KeyError: warnings").data],
          files_generated := [("endpoints.md").data, ("error-codes.md").data,
                              ("authentication.md").data, ("api-specification.json").data],
          endpoints_md := some t,
          error_codes_md := some (extract_error_codes t),
          authentication_md := some (extract_authentication_info t),
          api_specification_json := some (generate_api_specification ts t) }

/-- The observable outcome of `main` (source lines 270-308): the report is
saved and the summary printed unconditionally (lines 302-305), then the
process exits with `0` on success and `1` otherwise (line 308). -/
structure MainResult where
  exitCode : Nat
  reportSaved : Bool
  summaryPrinted : Bool
  gen : GenResult
deriving Repr

/-- `main` (source lines 270-308). -/
def main_run (ts : Str) (tmpl : Option Str) : MainResult :=
  { exitCode := if (generate_api_documentation ts tmpl).success then 0 else 1,
    reportSaved := true,
    summaryPrinted := true,
    gen := generate_api_documentation ts tmpl }

/-! ## Definitions following the spec's words (for refinement comparisons) -/

/-- Modelled from the spec: the header-line matching the spec's validator
describes — "a line beginning with one or more `#` characters followed by the
section name, case-insensitive" (spec section 4.2). -/
def specHeaderMatch (t sec : Str) : Bool :=
  (splitCh '\n' t).any (fun line =>
    !(line.takeWhile (fun c => c == '#')).isEmpty &&
    (lowerStr sec).isPrefixOf
      (lowerStr ((line.dropWhile (fun c => c == '#')).dropWhile (fun c => c == ' '))))

/-- Modelled from the spec: the default substitution variables of the
generator the spec describes — "current timestamp, a fixed version string, a
fixed base URL" (spec section 4.3); the fixed strings are the ones the
repository uses. -/
def default_vars (ts : Str) : List (Str × Str) :=
  [(("timestamp").data, ts), (("version").data, ("1.0.0").data),
   (("base_url").data, ("https://api.smart-medical-system.com/v1").data)]

/-- Modelled from the spec: replace every occurrence of each
`\x7b\x7bname\x7d\x7d` placeholder with its value (spec section 4.3). -/
def substituteVars (vars : List (Str × Str)) (t : Str) : Str :=
  vars.foldl
    (fun acc p => replaceAll (("\x7b\x7b").data ++ p.1 ++ ("\x7d\x7d").data) p.2 acc) t

/-- Modelled from the spec: the generator contract of spec section 4.3 —
caller variables merged over the defaults, placeholders substituted, and an
HTML-style comment recording the generation timestamp prepended.  This
generator exists in other variants of the repository, not in the one under
verification; it is the yardstick claim C1 measures the code against. -/
def spec_generate (vars : List (Str × Str)) (ts t : Str) : Str :=
  (("<!-- Generated at ").data ++ ts ++ (" -->\n").data) ++
  substituteVars
    (vars ++ (default_vars ts).filter (fun d => !(vars.any (fun v => v.1 == d.1)))) t

/-- Modelled from the spec: the issue list of the spec's validator
(spec sections 4.2 and 4.5) — missing-section issues via header matching, a
code-examples issue, and an HTTP-methods issue. -/
def spec_issues (t : Str) : List Str :=
  ((required_sections.filter (fun s => !specHeaderMatch t s)).map missingMsg) ++
  (if !containsSub (("```http").data) t && !containsSub (("```json").data) t &&
      !containsSub (("```javascript").data) t && !containsSub (("```python").data) t then
    [("No code examples found").data]
  else []) ++
  (if !([("GET ").data, ("POST ").data, ("PUT ").data, ("DELETE ").data,
        ("PATCH ").data, ("HEAD ").data, ("OPTIONS ").data].any
         (fun m => containsSub m t)) then
    [("No HTTP methods found in endpoints").data]
  else [])

/-- The observable outcome of one run of the spec's CLI driver. -/
structure SpecCliResult where
  outputWritten : Bool
  reportWritten : Bool
  exitCode : Nat
deriving DecidableEq, Repr

/-- Modelled from the spec: the CLI driver with the `--validate-only` flag
(spec sections 4.5 and 6), a flag the variant under `src/` does not define —
"loads template → validates structure → (if `validate-only` not set and
validation has no issues) generates output and supporting docs → writes JSON
report → prints a formatted console summary → exits 0 if no issues/errors
were recorded in the run, else exits 1". -/
def spec_cli_run (validateOnly : Bool) (tmpl : Option Str) : SpecCliResult :=
  match tmpl with
  | none => { outputWritten := false, reportWritten := true, exitCode := 1 }
  | some t =>
    { outputWritten := !validateOnly && (spec_issues t).isEmpty,
      reportWritten := true,
      exitCode := if (spec_issues t).isEmpty then 0 else 1 }

/-! ## Concrete templates used by the counterexamples and witnesses -/

/-- A template that passes every check of the validator: all five section
markers, an ```http fence, a `GET /x` token — and a `\x7b\x7bversion\x7d\x7d`
placeholder that the spec's generator would substitute. -/
def goodTemplate : Str :=
  ("## Overview\n## Authentication\n## Endpoints\n## Request/Response Examples\n## Error Codes\n```http\nGET /x\n```\n\x7b\x7bversion\x7d\x7d\n").data

/-- A template whose only header is a lower-case `## overview` line (plus the
fence and method token that keep the validator from raising). -/
def lowerOverviewTemplate : Str :=
  ("## overview\n```http\nGET /x\n").data

/-- A template with no section headers at all (but a fence and a method
token, so the validator returns). -/
def noSectionsTemplate : Str :=
  ("```http\nGET /x\n").data

/-- A template with the four sections other than `Error Codes` (plus fence
and method token). -/
def fourSectionsTemplate : Str :=
  ("## Overview\n## Authentication\n## Endpoints\n## Request/Response Examples\n```http\nGET /x\n").data

/-- The template of claim C6. -/
def c6Template : Str :=
  ("#### GET /patients list patients\n```http\nGET /patients\n```\n#### POST /patients create\n").data

/-! ## Formalisations of two claims as stated (used only to refute them) -/

/-- Claim C3 as stated: whenever the validator returns a result, a required
section is recorded as found exactly when some line of the template starts
with one or more `#` characters followed (case-insensitively) by the section
name. -/
def claimC3 : Prop :=
  ∀ t v s, validate_template_structure t = Except.ok v → s ∈ required_sections →
    (s ∈ v.sections_found ↔ specHeaderMatch t s = true)

/-- Claim C5 as stated: whenever the validator returns a result for a
template missing the `## Error Codes` header, its issue list is exactly the
one entry naming that section. -/
def claimC5 : Prop :=
  ∀ t v, validate_template_structure t = Except.ok v →
    containsSub (("## Error Codes").data) t = false →
    v.errors = [missingMsg (("Error Codes").data)]

/-! ## Helper lemmas -/

/-- `List.isPrefixOf` is transitive. -/
theorem isPrefixOf_trans : ∀ {a b c : Str},
    a.isPrefixOf b = true → b.isPrefixOf c = true → a.isPrefixOf c = true := by
  intro a
  induction a with
  | nil => intro b c _ _; simp [List.isPrefixOf]
  | cons x xs ih =>
    intro b c hab hbc
    cases b with
    | nil => simp [List.isPrefixOf] at hab
    | cons y ys =>
      cases c with
      | nil => simp [List.isPrefixOf] at hbc
      | cons z zs =>
        simp only [List.isPrefixOf, Bool.and_eq_true, beq_iff_eq] at hab hbc ⊢
        exact ⟨hab.1.trans hbc.1, ih hab.2 hbc.2⟩

/-- If a string contains `b` as a substring, it contains every prefix of `b`. -/
theorem containsSub_mono {a b : Str} (hab : a.isPrefixOf b = true) :
    ∀ t : Str, containsSub b t = true → containsSub a t = true := by
  intro t
  induction t with
  | nil =>
    intro h
    exact isPrefixOf_trans hab h
  | cons c cs ih =>
    intro h
    simp only [containsSub, Bool.or_eq_true] at h ⊢
    rcases h with h | h
    · exact Or.inl (isPrefixOf_trans hab h)
    · exact Or.inr (ih h)

/-- List concatenation is left-cancellative. -/
theorem append_inj_right (p : Str) : ∀ {a b : Str}, p ++ a = p ++ b → a = b := by
  induction p with
  | nil => intro a b h; exact h
  | cons c cs ih => intro a b h; injection h with _ h2; exact ih h2

/-- The issue strings for distinct sections are distinct. -/
theorem missingMsg_inj {a b : Str} (h : missingMsg a = missingMsg b) : a = b :=
  append_inj_right _ h

/-- Whenever `validate_template_structure` returns a result, the result is
the record built by the section loop. -/
theorem validate_ok_elim {t : Str} {v : ValidationResult}
    (h : validate_template_structure t = Except.ok v) :
    v = { valid := required_sections.all (fun s => containsSub (sectionMarker s) t),
          errors := (required_sections.filter
              (fun s => !containsSub (sectionMarker s) t)).map missingMsg,
          sections_found := required_sections.filter
              (fun s => containsSub (sectionMarker s) t) } := by
  unfold validate_template_structure at h
  split at h
  · exact absurd h (by simp)
  · split at h
    · exact absurd h (by simp)
    · exact (Except.ok.inj h).symm

/-- `generate_api_documentation` never returns success: even when validation
passes, line 101 of the source reads `validation["warnings"]`, a key
`validate_template_structure` never creates, so every run ends in the
`except` block. -/
theorem gen_success_false (ts : Str) (tmpl : Option Str) :
    (generate_api_documentation ts tmpl).success = false := by
  cases tmpl with
  | none => rfl
  | some t =>
    cases hval : validate_template_structure t with
    | error e => simp [generate_api_documentation, hval]
    | ok v => by_cases hv : v.valid <;> simp [generate_api_documentation, hval, hv]

/-! ## Claim C1 -/

/-- C1 counterexample: the generator of this variant writes the template to
`endpoints.md` verbatim (source line 92), so the written text is not the
claimed merge/substitute/prepend result: for the valid template
`goodTemplate` the written text is `goodTemplate` itself, which differs from
the spec generator's output (no timestamp comment is prepended and the
`\x7b\x7bversion\x7d\x7d` placeholder is left in place). -/
theorem c1_counterexample :
    (generate_api_documentation [] (some goodTemplate)).endpoints_md = some goodTemplate ∧
    goodTemplate ≠ spec_generate [] (("2024-01-01T00:00:00").data) goodTemplate :=
  ⟨rfl, by decide⟩

/-- C1 (amended): for every template that passes validation — the validator
returns a result whose valid flag is set, by whichever fence (```http or
```json) and method token (`GET /` or `POST /`) kept it from raising — the
final text written to `endpoints.md` equals the template content verbatim:
this variant's generator performs no variable substitution and prepends no
timestamp comment. -/
theorem c1_amended (ts t : Str) (v : ValidationResult)
    (hok : validate_template_structure t = Except.ok v) (hv : v.valid = true) :
    (generate_api_documentation ts (some t)).endpoints_md = some t := by
  simp [generate_api_documentation, hok, hv]

/-- C1 witness: the amended statement at the concrete valid template. -/
theorem c1_witness :
    (generate_api_documentation [] (some goodTemplate)).endpoints_md = some goodTemplate :=
  c1_amended [] goodTemplate ⟨true, [], required_sections⟩ rfl rfl

/-! ## Claim C2 -/

/-- C2 (code bug): for every template with neither an ```http nor an
```json fence, the structure validator does not return at all: it raises
`KeyError: 'warnings'` (source line 58 appends to a dictionary key that was
never created), rather than returning normally with a recorded issue as the
claim states. -/
theorem c2_validator_raises (t : Str)
    (h1 : containsSub (("```http").data) t = false)
    (h2 : containsSub (("```json").data) t = false) :
    validate_template_structure t = Except.error (("KeyError: warnings").data) := by
  simp [validate_template_structure, h1, h2]

/-- C2 witness: a template with headers but no code fences makes the
validator raise. -/
theorem c2_witness :
    validate_template_structure (("## Overview\n## Error Codes\n").data) =
      Except.error (("KeyError: warnings").data) :=
  c2_validator_raises (("## Overview\n## Error Codes\n").data) (by decide) (by decide)

/-! ## Claim C3 -/

/-- C3 counterexample: the validator matches sections with a case-sensitive
substring search for `"## section"`, not the claimed case-insensitive
header-line match: `lowerOverviewTemplate` has the lower-case header line
`## overview`, which the claimed rule matches for section `Overview`, yet the
validator does not record `Overview` as found. -/
theorem c3_counterexample : ¬ claimC3 := by
  intro h
  have h2 := (h lowerOverviewTemplate
      ⟨false, required_sections.map missingMsg, []⟩ (("Overview").data) rfl
      (by decide)).mpr (by decide)
  exact absurd h2 (by decide)

/-- C3 (amended): whenever the validator returns a result, a required section
is recorded as found if and only if the template contains the case-sensitive
substring `"## section"` (anywhere, not only at the start of a line), and the
section contributes exactly its one `Missing required section` issue if and
only if that substring is absent. -/
theorem c3_amended (t : Str) (v : ValidationResult) (s : Str)
    (hok : validate_template_structure t = Except.ok v) (hs : s ∈ required_sections) :
    (s ∈ v.sections_found ↔ containsSub (sectionMarker s) t = true) ∧
    (missingMsg s ∈ v.errors ↔ containsSub (sectionMarker s) t = false) := by
  have hv := validate_ok_elim hok
  subst hv
  constructor
  · simp [List.mem_filter, hs]
  · simp only [List.mem_map, List.mem_filter]
    constructor
    · rintro ⟨a, ⟨_, hpa⟩, he⟩
      have ha : a = s := missingMsg_inj he
      subst ha
      simpa using hpa
    · intro hp
      exact ⟨s, ⟨hs, by simp [hp]⟩, rfl⟩

/-- C3 witness: the amended statement at the concrete valid template and the
section `Overview`. -/
theorem c3_witness :
    ((("Overview").data ∈
        (⟨true, [], required_sections⟩ : ValidationResult).sections_found ↔
      containsSub (sectionMarker (("Overview").data)) goodTemplate = true) ∧
     (missingMsg (("Overview").data) ∈
        (⟨true, [], required_sections⟩ : ValidationResult).errors ↔
      containsSub (sectionMarker (("Overview").data)) goodTemplate = false)) :=
  c3_amended goodTemplate ⟨true, [], required_sections⟩ (("Overview").data) rfl (by decide)

/-! ## Claim C4 -/

/-- C4: every template containing all five required section markers, an
```http fence, and a `GET /x` token makes the validator return a result with
an empty issue list, the valid flag set, and all five sections found. -/
theorem c4_valid_template (t : Str)
    (h1 : containsSub (sectionMarker (("Overview").data)) t = true)
    (h2 : containsSub (sectionMarker (("Authentication").data)) t = true)
    (h3 : containsSub (sectionMarker (("Endpoints").data)) t = true)
    (h4 : containsSub (sectionMarker (("Request/Response Examples").data)) t = true)
    (h5 : containsSub (sectionMarker (("Error Codes").data)) t = true)
    (h6 : containsSub (("```http").data) t = true)
    (h7 : containsSub (("GET /x").data) t = true) :
    validate_template_structure t = Except.ok ⟨true, [], required_sections⟩ := by
  have hg : containsSub (("GET /").data) t = true :=
    containsSub_mono (by decide) t h7
  simp [validate_template_structure, required_sections, List.all, List.filter,
        h1, h2, h3, h4, h5, h6, hg]

/-- C4 witness: the statement at the concrete valid template. -/
theorem c4_witness :
    validate_template_structure goodTemplate = Except.ok ⟨true, [], required_sections⟩ :=
  c4_valid_template goodTemplate (by decide) (by decide) (by decide) (by decide) (by decide)
    (by decide) (by decide)

/-! ## Claim C5 -/

/-- C5 counterexample: for a template missing `## Error Codes` the issue list
need not be the single `Error Codes` entry — when other sections are missing
too, each contributes its own issue: `noSectionsTemplate` misses all five
sections and its issue list has five entries. -/
theorem c5_counterexample : ¬ claimC5 := by
  intro h
  have h2 := h noSectionsTemplate ⟨false, required_sections.map missingMsg, []⟩ rfl (by decide)
  exact absurd h2 (by decide)

/-- C5 (amended): for every template that the validator returns a result for,
containing the four other required section markers but missing
`## Error Codes`, the issue list is exactly the one entry naming
`Error Codes`. -/
theorem c5_amended (t : Str) (v : ValidationResult)
    (hok : validate_template_structure t = Except.ok v)
    (h1 : containsSub (sectionMarker (("Overview").data)) t = true)
    (h2 : containsSub (sectionMarker (("Authentication").data)) t = true)
    (h3 : containsSub (sectionMarker (("Endpoints").data)) t = true)
    (h4 : containsSub (sectionMarker (("Request/Response Examples").data)) t = true)
    (h5 : containsSub (sectionMarker (("Error Codes").data)) t = false) :
    v.errors = [missingMsg (("Error Codes").data)] := by
  have hv := validate_ok_elim hok
  subst hv
  simp [required_sections, List.filter, h1, h2, h3, h4, h5]

/-- C5 witness: the amended statement at the concrete template with the four
other sections. -/
theorem c5_witness :
    (⟨false, [missingMsg (("Error Codes").data)],
      [("Overview").data, ("Authentication").data, ("Endpoints").data,
       ("Request/Response Examples").data]⟩ : ValidationResult).errors =
      [missingMsg (("Error Codes").data)] :=
  c5_amended fourSectionsTemplate
    ⟨false, [missingMsg (("Error Codes").data)],
     [("Overview").data, ("Authentication").data, ("Endpoints").data,
      ("Request/Response Examples").data]⟩
    rfl (by decide) (by decide) (by decide) (by decide) (by decide)

/-! ## Claim C6 -/

/-- C6: on the given template the extracted specification has exactly two
endpoints — `GET /patients` with description `list patients` and the single
http example `GET /patients`, then `POST /patients` with description
`create` and no examples. -/
theorem c6_extracted_endpoints :
    (generate_api_specification [] c6Template).endpoints =
    [{ method := ("GET").data, path := ("/patients").data,
       description := ("list patients").data, parameters := [],
       examples := [{ type := ("http").data, content := ("GET /patients").data }] },
     { method := ("POST").data, path := ("/patients").data,
       description := ("create").data, parameters := [], examples := [] }] := rfl

/-! ## Claim C7 -/

/-- C7 counterexample: a `#### METHOD path description` line whose method is
`PUT` (or any method other than `GET`/`POST`) does not open an endpoint
record: the scanner's guard requires the substring `GET /` or `POST /`
(source line 191), so the template `#### PUT /x update` yields an empty
endpoint list even though its only line is a well-formed endpoint header. -/
theorem c7_counterexample :
    (generate_api_specification [] (("#### PUT /x update\n").data)).endpoints = [] ∧
    (("#### ").data).isPrefixOf (strip (("#### PUT /x update").data)) = true :=
  ⟨rfl, by decide⟩

/-- C7 (amended): a line opens a new endpoint record — first closing and
appending the previously open one, if any — exactly when its stripped form
starts with `#### ` and the line contains `GET /` or `POST /` as a substring
(and splits into at least two space-separated parts); the record's method is
the first part, its path the second, its description the remaining parts
joined by spaces.  Lines naming PUT, DELETE, PATCH, HEAD or OPTIONS without
such a substring never open a record. -/
theorem c7_amended (line : Str) (rest : List Str) (cur : Option Endpoint)
    (acc : List Endpoint)
    (hhdr : isEndpointHeader line = true) (hp : 2 ≤ (headerParts line).length) :
    specLoop cur acc (line :: rest) =
      specLoop (some { method := (headerParts line).headD [],
                       path := ((headerParts line).drop 1).headD [],
                       description := joinWith ((" ").data) ((headerParts line).drop 2),
                       parameters := [], examples := [] })
        (acc ++ cur.toList) rest := by
  simp [specLoop, hhdr, hp]

/-- C7 witness: the amended step at a concrete `GET` header line. -/
theorem c7_witness :
    specLoop none [] [(("#### GET /a b").data)] =
      [{ method := ("GET").data, path := ("/a").data, description := ("b").data,
         parameters := [], examples := [] }] := by
  rw [c7_amended (("#### GET /a b").data) [] none [] (by decide) (by decide)]
  rfl

/-! ## Claim C8 -/

/-- C8 (code bug): the process exit code is never `0`.  The claim's success
case is unreachable: on a fully valid template the generator writes all four
files but then line 101 reads `validation["warnings"]`, a key
`validate_template_structure` never creates, so the `except` block marks the
run failed and `main` exits `1` for every input; the report is still saved
and the summary printed. -/
theorem c8_exit_code_always_one (ts : Str) (tmpl : Option Str) :
    (main_run ts tmpl).exitCode = 1 ∧ (main_run ts tmpl).reportSaved = true ∧
    (main_run ts tmpl).summaryPrinted = true := by
  refine ⟨?_, rfl, rfl⟩
  simp [main_run, gen_success_false]

/-! ## Claim C9 -/

/-- C9 (spec-modelled): the variant under `src/` defines no `--validate-only`
flag at all, so the claim is settled against the CLI driver modelled from the
spec: when the validate-only flag is set, the output path is never written,
whatever the template and validation outcome. -/
theorem c9_validate_only_never_writes (tmpl : Option Str) :
    (spec_cli_run true tmpl).outputWritten = false := by
  cases tmpl <;> simp [spec_cli_run]

/-! ## Claim C10 -/

/-- C10 counterexample: for the `### HTTP Status Codes` marker as the last
header, the error-codes extractor does not return only its fixed top-level
header: the fallback `content.find("##", start_idx + 1)` matches inside the
marker's own `###` at `start_idx + 1`, so the single character `#` (plus two
newlines) is appended to the fixed header. -/
theorem c10_counterexample :
    extract_error_codes (("### HTTP Status Codes").data) =
      ("# Error Codes\n\n#\n\n").data ∧
    ("# Error Codes\n\n#\n\n").data ≠ ("# Error Codes\n\n").data :=
  ⟨rfl, by decide⟩

/-- C10 (amended): the claim does hold for the authentication extractor,
whose marker `## Authentication` starts with only two `#` characters: when no
occurrence of `##` follows the marker's start, the extractor returns only its
fixed top-level header.  For the two `###` error-codes markers the fallback
end-search instead stops inside the marker itself (see the counterexample). -/
theorem c10_amended (content : Str)
    (h1 : containsSub (("## Authentication").data) content = true)
    (h2 : pyFind content (("##").data) (authStart content + 1) = none) :
    extract_authentication_info content = ("# Authentication\n\n").data := by
  simp [extract_authentication_info, h1, h2]

/-- C10 witness: the amended statement at a template whose `## Authentication`
section is the last header. -/
theorem c10_witness :
    extract_authentication_info (("intro\n## Authentication\nuse a token\n").data) =
      ("# Authentication\n\n").data :=
  c10_amended (("intro\n## Authentication\nuse a token\n").data) (by decide) (by decide)
